import Mathlib

/-!
Verification of the PlantNet MCP server core (identification client,
result formatter, dispatcher input schema) against its specification.

The TypeScript sources are shallowly embedded:
* `src/plantnet-client.ts` — `PlantNetClient` (constructor, `identifyPlant`,
  `listProjects`) becomes pure Lean functions.  Network I/O is modelled by
  oracle functions passed as arguments (one for image GETs, one for the
  identify POST, one for the projects GET); each client run also returns the
  ordered trace of network events it performed, so that "no POST was issued"
  is a statement about the trace.
* the server file — the zod input schema `IdentifyPlantSchema` and the
  pure formatter `formatIdentifyResult`.

JavaScript numbers carried in responses (candidate scores) are modelled as
rationals; JSON bodies are modelled by the parsed structures the code casts
them to, together with an explicit stringifier standing for `JSON.stringify`.
-/

namespace PlantNet

/-! ### Data model (`src/types.ts`) -/

/-- Structure `PlantNetSpecies` from `types.ts`. -/
structure PlantNetSpecies where
  scientificNameWithoutAuthor : String
  scientificNameAuthorship : String
  scientificName : String
  genusName : String
  familyName : String
  commonNames : List String
deriving DecidableEq, Repr

/-- Structure `PlantNetResult` from `types.ts`; `gbif?`/`powo?` hold just the `id`
string, modelled as `Option String`. `score` is a JS number, modelled as a
rational. -/
structure PlantNetResult where
  score : ℚ
  species : PlantNetSpecies
  gbif : Option String
  powo : Option String
deriving DecidableEq, Repr

/-- The `query` sub-object of `PlantNetIdentifyResponse`. -/
structure QueryInfo where
  project : String
  images : List String
  organs : List String
  includeRelatedImages : Bool
deriving DecidableEq, Repr

/-- Structure `PlantNetIdentifyResponse` from `types.ts`. -/
structure PlantNetIdentifyResponse where
  query : QueryInfo
  language : String
  preferedReferential : String
  bestMatch : String
  results : List PlantNetResult
  remainingIdentificationRequests : Int
  version : String
deriving DecidableEq, Repr

/-- Structure `IdentifyPlantArgs` from `types.ts`: the optional fields are `Option`,
`none` standing for an absent (undefined) property. -/
structure IdentifyPlantArgs where
  image_urls : List String
  organs : List String
  project : Option String
  lang : Option String
  nb_results : Option Int
deriving DecidableEq, Repr

/-- One entry of the projects directory: `{ id: string; name: string }`. -/
structure ProjectInfo where
  id : String
  name : String
deriving DecidableEq, Repr

/-! ### String utilities mirroring the JavaScript primitives used -/

/-- List form of the JS string `includes` method: does `pat` occur as a
contiguous sublist? -/
def charsContain (pat : List Char) : List Char → Bool
  | [] => pat.isEmpty
  | c :: rest => pat.isPrefixOf (c :: rest) || charsContain pat rest

/-- JS `s.includes(pat)`. -/
def strIncludes (s pat : String) : Bool :=
  charsContain pat.toList s.toList

/-- Characters `encodeURIComponent` leaves unescaped:
`A-Z a-z 0-9 - _ . ! ~ * ' ( )`. -/
def uriUnreserved (c : Char) : Bool :=
  (65 ≤ c.toNat && c.toNat ≤ 90) || (97 ≤ c.toNat && c.toNat ≤ 122) ||
  (48 ≤ c.toNat && c.toNat ≤ 57) ||
  c.toNat ∈ [45, 95, 46, 33, 126, 42, 39, 40, 41]

/-- Upper-case hex digit of a value below 16. -/
def hexDigit (n : Nat) : Char :=
  if n < 10 then Char.ofNat (48 + n) else Char.ofNat (55 + n)

/-- Percent-encoding of one byte, e.g. `%2F`. -/
def percentByte (b : Nat) : List Char :=
  [Char.ofNat 37, hexDigit (b / 16), hexDigit (b % 16)]

/-- UTF-8 bytes of a code point. -/
def utf8Bytes (n : Nat) : List Nat :=
  if n < 128 then [n]
  else if n < 2048 then [192 + n / 64, 128 + n % 64]
  else if n < 65536 then [224 + n / 4096, 128 + (n / 64) % 64, 128 + n % 64]
  else [240 + n / 262144, 128 + (n / 4096) % 64, 128 + (n / 64) % 64, 128 + n % 64]

/-- JS `encodeURIComponent`. -/
def encodeURIComponent (s : String) : String :=
  String.mk (s.toList.flatMap fun c =>
    if uriUnreserved c then [c] else (utf8Bytes c.toNat).flatMap percentByte)

/-! ### Network model -/

/-- JS `Response.ok`: status in the inclusive range 200–299. -/
def respOk (status : Nat) : Bool :=
  decide (200 ≤ status) && decide (status ≤ 299)

/-- Result of `fetch(imageUrl)` for an image download: HTTP status, status
text, the declared `content-type` header (if any) and the body bytes. -/
structure FetchResponse where
  status : Nat
  statusText : String
  contentType : Option String
  bytes : List Nat
deriving DecidableEq, Repr

/-- Result of the identification POST: HTTP status and the body parsed as
JSON (the code casts it to `PlantNetIdentifyResponse` regardless of status). -/
structure PostResponse where
  status : Nat
  data : PlantNetIdentifyResponse
deriving DecidableEq, Repr

/-- Result of the projects GET: status, status text, the raw body text and
the body parsed as the projects mapping. -/
structure GetProjectsResponse where
  status : Nat
  statusText : String
  bodyText : String
  data : List (String × ProjectInfo)
deriving DecidableEq, Repr

/-- A URL as the client builds it with `new URL` + `searchParams.set`:
path plus ordered query parameters. -/
structure UrlParts where
  path : String
  query : List (String × String)
deriving DecidableEq, Repr

/-- One part of the multipart form body (`form-data`'s `append`): either a
binary image part with filename and content type, or a plain string field. -/
inductive FormPart where
  | image (fieldName : String) (bytes : List Nat) (filename : String)
      (contentType : String)
  | field (fieldName : String) (value : String)
deriving DecidableEq, Repr

/-- A network side effect performed by the client, in order. -/
inductive NetEvent where
  | fetchImage (url : String)
  | postIdentify (url : UrlParts) (form : List FormPart)
  | getProjects (url : UrlParts)
deriving DecidableEq, Repr

/-- The errors the client throws, with the exact message text each one
renders to (the source throws plain `Error`s with these messages). -/
inductive ClientError where
  | config (msg : String)
  | validation (msg : String)
  | fetchError (url : String) (statusText : String)
  | apiError (status : Nat) (body : String)
deriving DecidableEq, Repr

/-- The `message` of the thrown `Error`, exactly as the source builds it. -/
def ClientError.message : ClientError → String
  | .config msg => msg
  | .validation msg => msg
  | .fetchError url statusText =>
      "Failed to fetch image at " ++ url ++ ": " ++ statusText
  | .apiError status body =>
      "PlantNet API error " ++ toString status ++ ": " ++ body

/-! ### `JSON.stringify` model for the parsed identify body -/

/-- JSON string escaping (quote, backslash, common control characters). -/
def jsonEscapeChar (c : Char) : List Char :=
  if c.toNat = 34 then [Char.ofNat 92, Char.ofNat 34]
  else if c.toNat = 92 then [Char.ofNat 92, Char.ofNat 92]
  else if c.toNat = 10 then [Char.ofNat 92, Char.ofNat 110]
  else if c.toNat = 13 then [Char.ofNat 92, Char.ofNat 114]
  else if c.toNat = 9 then [Char.ofNat 92, Char.ofNat 116]
  else [c]

/-- A JSON string literal. -/
def jstr (s : String) : String :=
  String.mk (Char.ofNat 34 :: s.toList.flatMap jsonEscapeChar ++ [Char.ofNat 34])

/-- Rendering of a rational JSON number (integers without a fraction;
non-integral values as numerator/denominator — stands for the decimal JS
would print). -/
def jnum (q : ℚ) : String :=
  if q.den = 1 then toString q.num
  else toString q.num ++ "/" ++ toString q.den

/-- A JSON array from rendered members. -/
def jarr (xs : List String) : String :=
  "[" ++ String.intercalate "," xs ++ "]"

/-- A JSON object from rendered key/value pairs. -/
def jobj (kvs : List (String × String)) : String :=
  String.mk (Char.ofNat 123 :: String.toList
    (String.intercalate "," (kvs.map fun kv => jstr kv.1 ++ ":" ++ kv.2))
    ++ [Char.ofNat 125])

/-- Model of `JSON.stringify` on one candidate (optional keys omitted when absent,
as `JSON.stringify` omits `undefined`). -/
def stringifyResult (r : PlantNetResult) : String :=
  jobj ([("score", jnum r.score),
    ("species", jobj [
      ("scientificNameWithoutAuthor", jstr r.species.scientificNameWithoutAuthor),
      ("scientificNameAuthorship", jstr r.species.scientificNameAuthorship),
      ("scientificName", jstr r.species.scientificName),
      ("genus", jobj [("scientificNameWithoutAuthor", jstr r.species.genusName)]),
      ("family", jobj [("scientificNameWithoutAuthor", jstr r.species.familyName)]),
      ("commonNames", jarr (r.species.commonNames.map jstr))])] ++
    (match r.gbif with
     | some g => [("gbif", jobj [("id", jstr g)])]
     | none => []) ++
    (match r.powo with
     | some p => [("powo", jobj [("id", jstr p)])]
     | none => []))

/-- Model of `JSON.stringify` on the parsed identify response body. -/
def stringifyResponse (d : PlantNetIdentifyResponse) : String :=
  jobj [
    ("query", jobj [
      ("project", jstr d.query.project),
      ("images", jarr (d.query.images.map jstr)),
      ("organs", jarr (d.query.organs.map jstr)),
      ("includeRelatedImages", if d.query.includeRelatedImages then "true" else "false")]),
    ("language", jstr d.language),
    ("preferedReferential", jstr d.preferedReferential),
    ("bestMatch", jstr d.bestMatch),
    ("results", jarr (d.results.map stringifyResult)),
    ("remainingIdentificationRequests", toString d.remainingIdentificationRequests),
    ("version", jstr d.version)]

/-! ### The identification client (`src/plantnet-client.ts`) -/

/-- The `PlantNetClient` after a successful construction: it holds only the
API key. -/
structure PlantNetClient where
  apiKey : String
deriving DecidableEq, Repr

/-- Constructor `new PlantNetClient(apiKey)`: the constructor throws when the key is the
empty string (`!apiKey`) and otherwise stores it. -/
def mkPlantNetClient (apiKey : String) : Except ClientError PlantNetClient :=
  if apiKey = "" then .error (.config "PLANTNET_API_KEY is required")
  else .ok { apiKey := apiKey }

/-- Content type of a fetched image: the `content-type` header, defaulting
to `image/jpeg` (`|| 'image/jpeg'`; an empty header string is falsy too). -/
def contentTypeOf (r : FetchResponse) : String :=
  match r.contentType with
  | some ct => if ct = "" then "image/jpeg" else ct
  | none => "image/jpeg"

/-- Filename extension chosen for a fetched image:
`contentType.includes('png') ? 'png' : 'jpg'`. -/
def extOf (r : FetchResponse) : String :=
  if strIncludes (contentTypeOf r) "png" then "png" else "jpg"

/-- The image part `form.append('images', buffer, {filename, contentType})`
built for the download of `url` at loop index `i`. -/
def imagePart (fetchO : String → FetchResponse) (url : String) (i : Nat) :
    FormPart :=
  let r := fetchO url
  .image "images" r.bytes ("image" ++ toString i ++ "." ++ extOf r)
    (contentTypeOf r)

/-- The download loop of `identifyPlant` over the (url, organ) pairs,
starting at loop index `i`: on each iteration it fetches the url (recorded
as a trace event), fails with the fetch error on a non-ok status, and
otherwise appends the image part and the organ string part. Returns the
accumulated form parts (or the first error) and the trace. -/
def fetchImagesLoop (fetchO : String → FetchResponse) :
    List (String × String) → Nat →
    Except ClientError (List FormPart) × List NetEvent
  | [], _ => (.ok [], [])
  | (url, organ) :: rest, i =>
    let r := fetchO url
    if respOk r.status then
      match fetchImagesLoop fetchO rest (i + 1) with
      | (.ok more, evs) =>
        (.ok (imagePart fetchO url i :: .field "organs" organ :: more),
          .fetchImage url :: evs)
      | (.error e, evs) => (.error e, .fetchImage url :: evs)
    else
      (.error (.fetchError url r.statusText), [.fetchImage url])

/-- The identification URL: `new URL('/v2/identify/' + encodeURIComponent
(project))` with `api-key`, `lang`, `nb-results`, `include-related-images`
set in that order. -/
def identifyUrl (apiKey project lang : String) (nb_results : Int) : UrlParts :=
  { path := "/v2/identify/" ++ encodeURIComponent project,
    query := [("api-key", apiKey), ("lang", lang),
      ("nb-results", toString nb_results),
      ("include-related-images", "false")] }

/-- Method `PlantNetClient.identifyPlant`: destructure the arguments with defaults,
validate (empty list, count mismatch, over 5), download each image building
the multipart form, POST to the identification endpoint, parse the body
regardless of status, and fail with the API error on a non-ok status. The
second component is the ordered network-event trace. -/
def identifyPlant (client : PlantNetClient)
    (fetchO : String → FetchResponse)
    (postO : UrlParts → List FormPart → PostResponse)
    (args : IdentifyPlantArgs) :
    Except ClientError PlantNetIdentifyResponse × List NetEvent :=
  let image_urls := args.image_urls
  let organs := args.organs
  let project := args.project.getD "all"
  let lang := args.lang.getD "en"
  let nb_results := args.nb_results.getD 5
  if image_urls.length = 0 then
    (.error (.validation "At least one image URL is required"), [])
  else if image_urls.length ≠ organs.length then
    (.error (.validation "Number of image_urls must match number of organs"), [])
  else if image_urls.length > 5 then
    (.error (.validation "Maximum 5 images per request"), [])
  else
    match fetchImagesLoop fetchO (image_urls.zip organs) 0 with
    | (.error e, evs) => (.error e, evs)
    | (.ok form, evs) =>
      let url := identifyUrl client.apiKey project lang nb_results
      let resp := postO url form
      let evs2 := evs ++ [.postIdentify url form]
      if respOk resp.status then (.ok resp.data, evs2)
      else
        (.error (.apiError resp.status (stringifyResponse resp.data)), evs2)

/-- The projects URL: `/v2/projects` with `api-key` and `lang`. -/
def projectsUrl (apiKey lang : String) : UrlParts :=
  { path := "/v2/projects", query := [("api-key", apiKey), ("lang", lang)] }

/-- Method `PlantNetClient.listProjects`: GET the projects directory; on a non-ok
status throw the API error built from the status and the STATUS TEXT; on
success return the parsed mapping verbatim. -/
def listProjects (client : PlantNetClient)
    (getO : UrlParts → GetProjectsResponse) (lang : String := "en") :
    Except ClientError (List (String × ProjectInfo)) × List NetEvent :=
  let url := projectsUrl client.apiKey lang
  let r := getO url
  if respOk r.status then (.ok r.data, [.getProjects url])
  else (.error (.apiError r.status r.statusText), [.getProjects url])

/-! ### The result formatter (`formatIdentifyResult` in the server file) -/

/-- Model of the JS `toFixed(1)` rounding on rationals: round to one decimal
place, ties away from zero. -/
def toFixed1 (q : ℚ) : String :=
  let t : Int := Int.floor (q * 10 + 1 / 2)
  if t < 0 then "-" ++ toString ((-t) / 10) ++ "." ++ toString ((-t) % 10)
  else toString (t / 10) ++ "." ++ toString (t % 10)

/-- The fixed header lines pushed before the candidate loop. -/
def headerLines (d : PlantNetIdentifyResponse) : List String :=
  ["## Plant Identification Results",
   "",
   "**Best match:** " ++ d.bestMatch,
   "**Remaining daily quota:** " ++ toString d.remainingIdentificationRequests
     ++ " requests",
   "**AI engine version:** " ++ d.version,
   "",
   "### Top " ++ toString d.results.length ++ " Species Matches",
   ""]

/-- Text `commonNames.slice(0, 3).join(', ') || 'none known'`. -/
def commonNamesText (r : PlantNetResult) : String :=
  let s := String.intercalate ", " (r.species.commonNames.take 3)
  if s = "" then "none known" else s

/-- The lines the `forEach` body pushes for candidate `r` at index `i`. -/
def candidateBlock (r : PlantNetResult) (i : Nat) : List String :=
  ["**" ++ toString (i + 1) ++ ". " ++ r.species.scientificNameWithoutAuthor
     ++ "** — " ++ toFixed1 (r.score * 100) ++ "% confidence",
   "   - Author: " ++ (if r.species.scientificNameAuthorship = "" then
     "unknown" else r.species.scientificNameAuthorship),
   "   - Family: " ++ r.species.familyName,
   "   - Genus: " ++ r.species.genusName,
   "   - Common names: " ++ commonNamesText r] ++
  (match r.gbif with
   | some g => ["   - GBIF ID: " ++ g]
   | none => []) ++
  (match r.powo with
   | some p => ["   - POWO ID: " ++ p]
   | none => []) ++
  [""]

/-- The fixed closing lines. -/
def footerLines : List String :=
  ["---",
   "*Tip: For better accuracy, use clear photos of a single plant part and specify the correct organ.*"]

/-- The `lines` array of `formatIdentifyResult`: the header literal, then
the `forEach` over `data.results` pushing each candidate block, then the
closing push. -/
def formatLines (d : PlantNetIdentifyResponse) : List String :=
  (d.results.enum.foldl (fun acc p => acc ++ candidateBlock p.2 p.1)
    (headerLines d)) ++ footerLines

/-- Function `formatIdentifyResult`: `lines.join('\n')`. -/
def formatIdentifyResult (d : PlantNetIdentifyResponse) : String :=
  String.intercalate "\n" (formatLines d)

/-! ### The dispatcher input schema (`IdentifyPlantSchema`, zod) -/

/-- The closed organ enumeration of the schema. -/
def organEnum : List String :=
  ["leaf", "flower", "fruit", "bark", "auto", "habit", "other"]

/-- The raw `identify_plant` tool arguments before schema validation;
`none` is an absent optional property. `nb_results` is modelled as `Int`
(the schema's `.int()` check is absorbed by the type). -/
structure RawIdentifyArgs where
  image_urls : List String
  organs : List String
  project : Option String
  lang : Option String
  nb_results : Option Int
deriving DecidableEq, Repr

/-- The output of a successful `IdentifyPlantSchema.parse`: defaults have
been applied, so every field is present. -/
structure ParsedIdentifyArgs where
  image_urls : List String
  organs : List String
  project : String
  lang : String
  nb_results : Int
deriving DecidableEq, Repr

/-- Schema check `IdentifyPlantSchema.parse`: `image_urls` is a list of URL strings
(URL well-formedness delegated to the `isUrl` predicate standing for zod's
check) of length 1..5; `organs` is a non-empty list over the organ
enumeration; `nb_results`, when present, lies in 1..25; defaults `all`,
`en`, `5` are applied. `none` is a thrown `ZodError`. -/
def parseIdentifyArgs (isUrl : String → Bool) (raw : RawIdentifyArgs) :
    Option ParsedIdentifyArgs :=
  if raw.image_urls.all isUrl && decide (1 ≤ raw.image_urls.length) &&
      decide (raw.image_urls.length ≤ 5) &&
      raw.organs.all (fun o => organEnum.contains o) &&
      decide (1 ≤ raw.organs.length) &&
      (match raw.nb_results with
       | none => true
       | some n => decide (1 ≤ n) && decide (n ≤ 25)) then
    some { image_urls := raw.image_urls, organs := raw.organs,
           project := raw.project.getD "all", lang := raw.lang.getD "en",
           nb_results := raw.nb_results.getD 5 }
  else none

/-- Schema-validated arguments handed to the client (every optional field
present). -/
def toIdentifyArgs (a : ParsedIdentifyArgs) : IdentifyPlantArgs :=
  { image_urls := a.image_urls, organs := a.organs,
    project := some a.project, lang := some a.lang,
    nb_results := some a.nb_results }

/-- Errors the `identify_plant` tool handler surfaces: a schema parse
failure (zod throw) or a client error. -/
inductive HandlerError where
  | schemaError
  | clientError (e : ClientError)
deriving DecidableEq, Repr

/-- The `identify_plant` branch of the tool-call handler:
`IdentifyPlantSchema.parse(args)` then `client.identifyPlant(parsed)` then
`formatIdentifyResult(result)`. -/
def handleIdentifyPlant (isUrl : String → Bool) (client : PlantNetClient)
    (fetchO : String → FetchResponse)
    (postO : UrlParts → List FormPart → PostResponse)
    (raw : RawIdentifyArgs) : Except HandlerError String × List NetEvent :=
  match parseIdentifyArgs isUrl raw with
  | none => (.error .schemaError, [])
  | some a =>
    match identifyPlant client fetchO postO (toIdentifyArgs a) with
    | (.ok d, evs) => (.ok (formatIdentifyResult d), evs)
    | (.error e, evs) => (.error (.clientError e), evs)

/-! ### Helper lemmas -/

/-- A `foldl` that appends a block per element is the initial list followed
by the concatenation of the blocks. -/
theorem foldl_append_blocks {α β : Type} (f : α → List β) :
    ∀ (l : List α) (init : List β),
      l.foldl (fun acc x => acc ++ f x) init = init ++ l.flatMap f := by
  intro l
  induction l with
  | nil => intro init; simp
  | cons x xs ih =>
    intro init
    simp [List.foldl_cons, ih, List.append_assoc]

/-- When every download succeeds, the download loop returns the
index-aligned image/organ parts and a fetch event per pair. -/
theorem fetchImagesLoop_all_ok (fetchO : String → FetchResponse) :
    ∀ (pairs : List (String × String)) (i : Nat),
      (∀ p ∈ pairs, respOk (fetchO p.1).status = true) →
      fetchImagesLoop fetchO pairs i =
        (.ok ((List.enumFrom i pairs).flatMap fun q =>
            [imagePart fetchO q.2.1 q.1, .field "organs" q.2.2]),
         pairs.map fun p => .fetchImage p.1) := by
  intro pairs
  induction pairs with
  | nil => intro i _; rfl
  | cons p rest ih =>
    intro i h
    obtain ⟨url, organ⟩ := p
    have hok : respOk (fetchO url).status = true := h _ (List.mem_cons_self _ _)
    have hrest : ∀ q ∈ rest, respOk (fetchO q.1).status = true :=
      fun q hq => h q (List.mem_cons_of_mem _ hq)
    simp [fetchImagesLoop, hok, ih (i + 1) hrest, List.enumFrom]

/-- When the pair at position `j` is the first whose download fails, the
loop stops there: it reports the fetch error for that url and records
exactly the fetches up to and including position `j`. -/
theorem fetchImagesLoop_first_fail (fetchO : String → FetchResponse) :
    ∀ (pairs : List (String × String)) (i j : Nat) (u : String) (o : String),
      pairs.get? j = some (u, o) →
      respOk (fetchO u).status = false →
      (∀ k, k < j → ∀ q, pairs.get? k = some q →
        respOk (fetchO q.1).status = true) →
      fetchImagesLoop fetchO pairs i =
        (.error (.fetchError u (fetchO u).statusText),
         (pairs.take (j + 1)).map fun p => .fetchImage p.1) := by
  intro pairs
  induction pairs with
  | nil => intro i j u o hj; simp at hj
  | cons p rest ih =>
    intro i j u o hj hfail hpre
    obtain ⟨url, organ⟩ := p
    cases j with
    | zero =>
      simp only [List.get?] at hj
      obtain ⟨hu, ho⟩ := Prod.mk.injEq .. ▸ (Option.some.injEq .. ▸ hj)
      subst hu
      simp [fetchImagesLoop, hfail]
    | succ j' =>
      have hok : respOk (fetchO url).status = true := by
        have := hpre 0 (Nat.succ_pos _) (url, organ) rfl
        simpa using this
      have hj' : rest.get? j' = some (u, o) := hj
      have hpre' : ∀ k, k < j' → ∀ q, rest.get? k = some q →
          respOk (fetchO q.1).status = true := by
        intro k hk q hq
        exact hpre (k + 1) (Nat.succ_lt_succ hk) q hq
      have := ih (i + 1) j' u o hj' hfail hpre'
      simp [fetchImagesLoop, hok, this, List.take]

/-! ### C8: construction contract -/

/-- C8: constructing the client with the empty credential fails with the
configuration error, and any non-empty credential constructs the client
holding that key. -/
theorem c8_construction (k : String) (h : k ≠ "") :
    mkPlantNetClient "" = .error (.config "PLANTNET_API_KEY is required") ∧
    mkPlantNetClient k = .ok { apiKey := k } := by
  constructor
  · rfl
  · simp [mkPlantNetClient, h]

/-- C8 witness at the concrete key "abc". -/
theorem c8_construction_witness :
    mkPlantNetClient "" = .error (.config "PLANTNET_API_KEY is required") ∧
    mkPlantNetClient "abc" = .ok { apiKey := "abc" } :=
  c8_construction "abc" (by decide)

/-! ### C1: validation happens before any network I/O -/

/-- C1: for every identify request — whatever the project, language,
result count and network oracles — an empty image-locator list fails with
the at-least-one-image validation error, a locator/organ count mismatch
fails with a validation error, and more than 5 locators fails with a
validation error; in all three cases the network-event trace is empty, so
no fetch and no POST was performed. -/
theorem c1_validation_before_network (c : PlantNetClient)
    (fetchO : String → FetchResponse)
    (postO : UrlParts → List FormPart → PostResponse)
    (args : IdentifyPlantArgs) :
    (args.image_urls.length = 0 →
      identifyPlant c fetchO postO args =
        (.error (.validation "At least one image URL is required"), [])) ∧
    (args.image_urls.length ≠ args.organs.length →
      (∃ msg, (identifyPlant c fetchO postO args).1 = .error (.validation msg)) ∧
      (identifyPlant c fetchO postO args).2 = []) ∧
    (5 < args.image_urls.length →
      (∃ msg, (identifyPlant c fetchO postO args).1 = .error (.validation msg)) ∧
      (identifyPlant c fetchO postO args).2 = []) := by
  refine ⟨fun h0 => by simp [identifyPlant, h0], fun hne => ?_, fun h5 => ?_⟩
  · by_cases h0 : args.image_urls.length = 0
    · simp only [identifyPlant, h0]
      exact ⟨⟨_, rfl⟩, by trivial⟩
    · simp only [identifyPlant, if_neg h0, if_pos hne]
      exact ⟨⟨_, rfl⟩, by trivial⟩
  · have h0 : ¬ args.image_urls.length = 0 := by omega
    by_cases hne : args.image_urls.length ≠ args.organs.length
    · simp only [identifyPlant, if_neg h0, if_pos hne]
      exact ⟨⟨_, rfl⟩, by trivial⟩
    · simp only [identifyPlant, if_neg h0, if_neg hne, if_pos h5]
      exact ⟨⟨_, rfl⟩, by trivial⟩

/-- C1 witness: the three failing shapes at concrete inputs (no urls; one
url against two organs; six urls), with oracles that would answer any
request, and explicit non-default other fields. -/
theorem c1_validation_before_network_witness :
    (([] : List String).length = 0 ∧
      identifyPlant { apiKey := "k" }
        (fun _ => { status := 200, statusText := "OK", contentType := none,
                    bytes := [] })
        (fun _ _ => { status := 200, data := {
          query := { project := "all", images := [], organs := [],
                     includeRelatedImages := false },
          language := "en", preferedReferential := "all", bestMatch := "",
          results := [], remainingIdentificationRequests := 0,
          version := "v" } })
        { image_urls := [], organs := ["leaf"], project := some "weurope",
          lang := some "fr", nb_results := some 3 } =
        (.error (.validation "At least one image URL is required"), [])) ∧
    ((identifyPlant { apiKey := "k" }
        (fun _ => { status := 200, statusText := "OK", contentType := none,
                    bytes := [] })
        (fun _ _ => { status := 200, data := {
          query := { project := "all", images := [], organs := [],
                     includeRelatedImages := false },
          language := "en", preferedReferential := "all", bestMatch := "",
          results := [], remainingIdentificationRequests := 0,
          version := "v" } })
        { image_urls := ["u1"], organs := ["leaf", "flower"], project := none,
          lang := none, nb_results := none }).2 = []) ∧
    ((identifyPlant { apiKey := "k" }
        (fun _ => { status := 200, statusText := "OK", contentType := none,
                    bytes := [] })
        (fun _ _ => { status := 200, data := {
          query := { project := "all", images := [], organs := [],
                     includeRelatedImages := false },
          language := "en", preferedReferential := "all", bestMatch := "",
          results := [], remainingIdentificationRequests := 0,
          version := "v" } })
        { image_urls := ["a", "b", "c", "d", "e", "f"],
          organs := ["leaf", "leaf", "leaf", "leaf", "leaf", "leaf"],
          project := none, lang := none, nb_results := none }).2 = []) := by
  refine ⟨⟨rfl, ?_⟩, ?_, ?_⟩
  · exact (c1_validation_before_network _ _ _ _).1 rfl
  · exact ((c1_validation_before_network _ _ _ _).2.1 (by decide)).2
  · exact ((c1_validation_before_network _ _ _ _).2.2 (by decide)).2

/-! ### C10: order of the validation checks -/

/-- C10: the validation checks run in the fixed order emptiness, count
mismatch, over-limit: an empty locator list (even with a non-empty organ
list, hence also a count mismatch) reports the at-least-one-image error,
and more than 5 locators with a mismatched organ count reports the
count-mismatch error, not the maximum-5 error. -/
theorem c10_validation_check_order (c : PlantNetClient)
    (fetchO : String → FetchResponse)
    (postO : UrlParts → List FormPart → PostResponse)
    (args : IdentifyPlantArgs) :
    (args.image_urls = [] →
      identifyPlant c fetchO postO args =
        (.error (.validation "At least one image URL is required"), [])) ∧
    (5 < args.image_urls.length →
      args.image_urls.length ≠ args.organs.length →
      identifyPlant c fetchO postO args =
        (.error (.validation "Number of image_urls must match number of organs"),
         [])) := by
  constructor
  · intro h0
    simp [identifyPlant, h0]
  · intro h5 hne
    have h0 : ¬ args.image_urls.length = 0 := by omega
    simp only [identifyPlant, if_neg h0, if_pos hne]

/-- C10 witness: empty locators with one organ give the at-least-one-image
error; six locators with two organs give the count-mismatch error. -/
theorem c10_validation_check_order_witness :
    identifyPlant { apiKey := "k" }
      (fun _ => { status := 200, statusText := "OK", contentType := none,
                  bytes := [] })
      (fun _ _ => { status := 500, data := {
        query := { project := "all", images := [], organs := [],
                   includeRelatedImages := false },
        language := "en", preferedReferential := "all", bestMatch := "",
        results := [], remainingIdentificationRequests := 0,
        version := "v" } })
      { image_urls := [], organs := ["leaf"], project := none, lang := none,
        nb_results := none } =
      (.error (.validation "At least one image URL is required"), []) ∧
    identifyPlant { apiKey := "k" }
      (fun _ => { status := 200, statusText := "OK", contentType := none,
                  bytes := [] })
      (fun _ _ => { status := 500, data := {
        query := { project := "all", images := [], organs := [],
                   includeRelatedImages := false },
        language := "en", preferedReferential := "all", bestMatch := "",
        results := [], remainingIdentificationRequests := 0,
        version := "v" } })
      { image_urls := ["a", "b", "c", "d", "e", "f"], organs := ["leaf", "bark"],
        project := none, lang := none, nb_results := none } =
      (.error (.validation "Number of image_urls must match number of organs"),
       []) :=
  ⟨(c10_validation_check_order _ _ _ _).1 rfl,
   (c10_validation_check_order _ _ _ _).2 (by decide) (by decide)⟩

/-- Mapping a first-projection function over a prefix of a zip of
equal-length lists is mapping over the prefix of the first list. -/
theorem zip_take_map_fst {α β γ : Type} (g : α → γ) :
    ∀ (a : List α) (b : List β) (n : Nat), a.length = b.length →
      ((a.zip b).take n).map (fun p => g p.1) = (a.take n).map g := by
  intro a
  induction a with
  | nil => intro b n _; simp
  | cons x xs ih =>
    intro b n hlen
    cases b with
    | nil => simp at hlen
    | cons y ys =>
      cases n with
      | zero => simp
      | succ m =>
        simp only [List.zip_cons_cons, List.take_succ_cons, List.map_cons]
        rw [ih ys m (by simpa using hlen)]

/-! ### C2: a failing image download aborts before the POST -/

/-- C2: if the request passes validation and the download of the locator at
position `j` returns a non-success status while every earlier download
succeeds, `identifyPlant` fails with the fetch error carrying that locator
and the response's status text, the trace is exactly the downloads up to
and including position `j`, and in particular no identification POST
appears in the trace. -/
theorem c2_fetch_failure_aborts (c : PlantNetClient)
    (fetchO : String → FetchResponse)
    (postO : UrlParts → List FormPart → PostResponse)
    (args : IdentifyPlantArgs) (j : Nat) (u : String)
    (hlen : args.image_urls.length = args.organs.length)
    (hle : args.image_urls.length ≤ 5)
    (hj : args.image_urls.get? j = some u)
    (hfail : respOk (fetchO u).status = false)
    (hpre : ∀ k, k < j → ∀ v, args.image_urls.get? k = some v →
      respOk (fetchO v).status = true) :
    identifyPlant c fetchO postO args =
      (.error (.fetchError u (fetchO u).statusText),
       (args.image_urls.take (j + 1)).map .fetchImage) ∧
    ∀ url form,
      NetEvent.postIdentify url form ∉ (identifyPlant c fetchO postO args).2 := by
  have hjlt : j < args.image_urls.length := by
    by_contra hge
    rw [List.get?_eq_none.2 (Nat.le_of_not_lt hge)] at hj
    exact Option.noConfusion hj
  obtain ⟨o, ho⟩ : ∃ o, args.organs.get? j = some o := by
    have : j < args.organs.length := hlen ▸ hjlt
    exact List.get?_eq_get this ▸ ⟨_, rfl⟩
  have hzip : (args.image_urls.zip args.organs).get? j = some (u, o) := by
    rw [List.get?_zip_eq_some]
    exact ⟨hj, ho⟩
  have hpre' : ∀ k, k < j → ∀ q, (args.image_urls.zip args.organs).get? k =
      some q → respOk (fetchO q.1).status = true := by
    intro k hk q hq
    rw [List.get?_zip_eq_some] at hq
    exact hpre k hk q.1 hq.1
  have hloop := fetchImagesLoop_first_fail fetchO
    (args.image_urls.zip args.organs) 0 j u o hzip hfail hpre'
  have h0 : ¬ (args.image_urls.length = 0) := by omega
  have hne : ¬ (args.image_urls.length ≠ args.organs.length) := by omega
  have h5 : ¬ (5 < args.image_urls.length) := by omega
  have hmain : identifyPlant c fetchO postO args =
      (.error (.fetchError u (fetchO u).statusText),
       (args.image_urls.take (j + 1)).map .fetchImage) := by
    simp only [identifyPlant, if_neg h0, if_neg hne, if_neg h5, hloop]
    rw [zip_take_map_fst NetEvent.fetchImage args.image_urls args.organs
      (j + 1) hlen]
  refine ⟨hmain, ?_⟩
  intro url form
  rw [hmain]
  intro hmem
  have hmem' := List.take_subset _ _ (by simpa using hmem)
  simp [List.mem_map] at hmem'

/-- C2 witness: of three urls the second returns HTTP 404 "Not Found"; the
call fails with the fetch error for that url, the trace is the first two
downloads, and contains no POST. -/
theorem c2_fetch_failure_aborts_witness :
    identifyPlant { apiKey := "k" }
      (fun url => if url = "u2" then
        { status := 404, statusText := "Not Found", contentType := none,
          bytes := [] }
        else { status := 200, statusText := "OK",
               contentType := some "image/png", bytes := [7] })
      (fun _ _ => { status := 200, data := {
        query := { project := "all", images := [], organs := [],
                   includeRelatedImages := false },
        language := "en", preferedReferential := "all", bestMatch := "",
        results := [], remainingIdentificationRequests := 0,
        version := "v" } })
      { image_urls := ["u1", "u2", "u3"], organs := ["leaf", "flower", "bark"],
        project := none, lang := none, nb_results := none } =
      (.error (.fetchError "u2" "Not Found"),
       [.fetchImage "u1", .fetchImage "u2"]) := by
  have h := c2_fetch_failure_aborts { apiKey := "k" }
    (fun url => if url = "u2" then
      { status := 404, statusText := "Not Found", contentType := none,
        bytes := [] }
      else { status := 200, statusText := "OK",
             contentType := some "image/png", bytes := [7] })
    (fun _ _ => { status := 200, data := {
      query := { project := "all", images := [], organs := [],
                 includeRelatedImages := false },
      language := "en", preferedReferential := "all", bestMatch := "",
      results := [], remainingIdentificationRequests := 0,
      version := "v" } })
    { image_urls := ["u1", "u2", "u3"], organs := ["leaf", "flower", "bark"],
      project := none, lang := none, nb_results := none }
    1 "u2" (by decide) (by decide) (by decide) (by decide)
    (by decide)
  exact h.1

/-! ### The successful download path -/

/-- The multipart form `identifyPlant` assembles for a request whose
downloads all succeed: per (url, organ) pair, in order, the binary image
part followed by the organ string part
(`identifyPlant_success_shape` proves the client builds exactly this). -/
def builtForm (fetchO : String → FetchResponse) (args : IdentifyPlantArgs) :
    List FormPart :=
  (List.enumFrom 0 (args.image_urls.zip args.organs)).flatMap fun q =>
    [imagePart fetchO q.2.1 q.1, .field "organs" q.2.2]

/-- The identify POST response for a request whose downloads all succeed. -/
def identifyResp (c : PlantNetClient) (fetchO : String → FetchResponse)
    (postO : UrlParts → List FormPart → PostResponse)
    (args : IdentifyPlantArgs) : PostResponse :=
  postO
    (identifyUrl c.apiKey (args.project.getD "all") (args.lang.getD "en")
      (args.nb_results.getD 5))
    (builtForm fetchO args)

/-- When validation passes and every download succeeds, `identifyPlant`
fetches each url in order, POSTs the assembled form to the identification
URL, and returns the parsed body on a success status or the API error
(status plus stringified parsed body) otherwise. -/
theorem identifyPlant_success_shape (c : PlantNetClient)
    (fetchO : String → FetchResponse)
    (postO : UrlParts → List FormPart → PostResponse)
    (args : IdentifyPlantArgs)
    (h0 : args.image_urls.length ≠ 0)
    (hlen : args.image_urls.length = args.organs.length)
    (hle : args.image_urls.length ≤ 5)
    (hok : ∀ u ∈ args.image_urls, respOk (fetchO u).status = true) :
    identifyPlant c fetchO postO args =
      ((if respOk (identifyResp c fetchO postO args).status then
          .ok (identifyResp c fetchO postO args).data
        else
          .error (.apiError (identifyResp c fetchO postO args).status
            (stringifyResponse (identifyResp c fetchO postO args).data))),
       args.image_urls.map .fetchImage ++
         [.postIdentify
           (identifyUrl c.apiKey (args.project.getD "all")
             (args.lang.getD "en") (args.nb_results.getD 5))
           (builtForm fetchO args)]) := by
  have hzipok : ∀ p ∈ args.image_urls.zip args.organs,
      respOk (fetchO p.1).status = true := by
    intro p hp
    obtain ⟨u, o⟩ := p
    exact hok u (List.of_mem_zip hp).1
  have hloop := fetchImagesLoop_all_ok fetchO (args.image_urls.zip args.organs)
    0 hzipok
  have hne : ¬ (args.image_urls.length ≠ args.organs.length) := by omega
  have h5 : ¬ (5 < args.image_urls.length) := by omega
  have htrace : (args.image_urls.zip args.organs).map
      (fun p => NetEvent.fetchImage p.1) =
      args.image_urls.map NetEvent.fetchImage := by
    have h := zip_take_map_fst NetEvent.fetchImage args.image_urls args.organs
      args.image_urls.length hlen
    rwa [List.take_length, List.take_of_length_le (by simp [hlen])] at h
  simp only [identifyPlant, if_neg h0, if_neg hne, if_neg h5, hloop, htrace]
  simp only [identifyResp, builtForm]
  split <;> rfl

/-! ### C3 (corrected): upstream-error contents -/

/-- C3 as stated is false: on a non-success projects GET, the error
`listProjects` throws carries the status text, not the response body.
Concretely, with a 401 response whose status text is "Unauthorized" and
whose raw body is "RAWBODY", the thrown error is
`PlantNet API error 401: Unauthorized`, which does not contain the body. -/
theorem c3_counterexample :
    (listProjects { apiKey := "k" }
        (fun _ => { status := 401, statusText := "Unauthorized",
                    bodyText := "RAWBODY", data := [] }) "en").1 =
      .error (.apiError 401 "Unauthorized") ∧
    "Unauthorized" ≠ "RAWBODY" ∧
    strIncludes
      (ClientError.message (.apiError 401 "Unauthorized")) "RAWBODY" = false := by
  refine ⟨rfl, by decide, by decide⟩

/-- C3 amended: on a non-success status, `identifyPlant` raises the API
error carrying the status code and the stringified JSON-parsed response
body (the body is parsed regardless of status), while `listProjects`
raises the API error carrying the status code and the response's STATUS
TEXT (reason), not its body. -/
theorem c3_upstream_error_amended (c : PlantNetClient)
    (fetchO : String → FetchResponse)
    (postO : UrlParts → List FormPart → PostResponse)
    (getO : UrlParts → GetProjectsResponse)
    (args : IdentifyPlantArgs) (lang : String)
    (h0 : args.image_urls.length ≠ 0)
    (hlen : args.image_urls.length = args.organs.length)
    (hle : args.image_urls.length ≤ 5)
    (hok : ∀ u ∈ args.image_urls, respOk (fetchO u).status = true)
    (hpost : respOk (identifyResp c fetchO postO args).status = false)
    (hget : respOk (getO (projectsUrl c.apiKey lang)).status = false) :
    (identifyPlant c fetchO postO args).1 =
      .error (.apiError (identifyResp c fetchO postO args).status
        (stringifyResponse (identifyResp c fetchO postO args).data)) ∧
    listProjects c getO lang =
      (.error (.apiError (getO (projectsUrl c.apiKey lang)).status
        (getO (projectsUrl c.apiKey lang)).statusText),
       [.getProjects (projectsUrl c.apiKey lang)]) := by
  constructor
  · rw [identifyPlant_success_shape c fetchO postO args h0 hlen hle hok]
    simp [hpost]
  · simp [listProjects, hget]

/-! ### Sample concrete data for witnesses -/

/-- A successful PNG image download used by witnesses. -/
def okPngFetch : FetchResponse :=
  { status := 200, statusText := "OK", contentType := some "image/png",
    bytes := [7, 8] }

/-- A sample species record used by witnesses. -/
def sampleSpecies : PlantNetSpecies :=
  { scientificNameWithoutAuthor := "Rosa canina",
    scientificNameAuthorship := "L.", scientificName := "Rosa canina L.",
    genusName := "Rosa", familyName := "Rosaceae",
    commonNames := ["Dog rose", "Wild rose"] }

/-- A sample upstream identify response used by witnesses. -/
def sampleData : PlantNetIdentifyResponse :=
  { query := { project := "all", images := ["i0"], organs := ["leaf"],
               includeRelatedImages := false },
    language := "en", preferedReferential := "all",
    bestMatch := "Rosa canina",
    results := [{ score := 87 / 100, species := sampleSpecies,
                  gbif := some "314", powo := none }],
    remainingIdentificationRequests := 499, version := "1.2" }

/-- A sample one-image request with no optional fields. -/
def sampleArgs : IdentifyPlantArgs :=
  { image_urls := ["u1"], organs := ["leaf"], project := none, lang := none,
    nb_results := none }

/-! ### C3 witness -/

/-- C3 amended, witness: a 500 identify POST yields the API error with
status 500 and the stringified parsed body; a 404 projects GET yields the
API error with status 404 and status text "Not Found". -/
theorem c3_upstream_error_amended_witness :
    (identifyPlant { apiKey := "k" } (fun _ => okPngFetch)
        (fun _ _ => { status := 500, data := sampleData }) sampleArgs).1 =
      .error (.apiError 500 (stringifyResponse sampleData)) ∧
    listProjects { apiKey := "k" }
        (fun _ => { status := 404, statusText := "Not Found",
                    bodyText := "{}", data := [] }) "en" =
      (.error (.apiError 404 "Not Found"),
       [.getProjects (projectsUrl "k" "en")]) :=
  c3_upstream_error_amended { apiKey := "k" } (fun _ => okPngFetch)
    (fun _ _ => { status := 500, data := sampleData })
    (fun _ => { status := 404, statusText := "Not Found", bodyText := "{}",
                data := [] })
    sampleArgs "en" (by decide) (by decide) (by decide) (by decide)
    (by decide) (by decide)

/-! ### C4: pass-through fidelity on success -/

/-- C4: with successful downloads and a success upstream status,
`identifyPlant` returns the parsed upstream body unchanged — the best
match, every candidate score and the remaining-quota counter are exactly
the upstream's; `listProjects` likewise returns the upstream mapping
unchanged on a success status. -/
theorem c4_passthrough (c : PlantNetClient)
    (fetchO : String → FetchResponse)
    (postO : UrlParts → List FormPart → PostResponse)
    (getO : UrlParts → GetProjectsResponse)
    (args : IdentifyPlantArgs) (lang : String)
    (h0 : args.image_urls.length ≠ 0)
    (hlen : args.image_urls.length = args.organs.length)
    (hle : args.image_urls.length ≤ 5)
    (hok : ∀ u ∈ args.image_urls, respOk (fetchO u).status = true)
    (hpost : respOk (identifyResp c fetchO postO args).status = true)
    (hget : respOk (getO (projectsUrl c.apiKey lang)).status = true) :
    (∃ d, (identifyPlant c fetchO postO args).1 = .ok d ∧
      d.bestMatch = (identifyResp c fetchO postO args).data.bestMatch ∧
      d.results.map PlantNetResult.score =
        (identifyResp c fetchO postO args).data.results.map
          PlantNetResult.score ∧
      d.remainingIdentificationRequests =
        (identifyResp c fetchO postO args).data.remainingIdentificationRequests ∧
      d = (identifyResp c fetchO postO args).data) ∧
    (listProjects c getO lang).1 = .ok (getO (projectsUrl c.apiKey lang)).data := by
  constructor
  · refine ⟨(identifyResp c fetchO postO args).data, ?_, rfl, rfl, rfl, rfl⟩
    rw [identifyPlant_success_shape c fetchO postO args h0 hlen hle hok]
    simp [hpost]
  · simp [listProjects, hget]

/-- C4 witness: concrete one-image request against a 200 upstream; the
returned body is `sampleData` itself, and the projects mapping comes back
verbatim. -/
theorem c4_passthrough_witness :
    (∃ d, (identifyPlant { apiKey := "k" } (fun _ => okPngFetch)
        (fun _ _ => { status := 200, data := sampleData }) sampleArgs).1 =
          .ok d ∧
      d.bestMatch = (identifyResp { apiKey := "k" } (fun _ => okPngFetch)
        (fun _ _ => { status := 200, data := sampleData })
        sampleArgs).data.bestMatch ∧
      d.results.map PlantNetResult.score =
        (identifyResp { apiKey := "k" } (fun _ => okPngFetch)
          (fun _ _ => { status := 200, data := sampleData })
          sampleArgs).data.results.map PlantNetResult.score ∧
      d.remainingIdentificationRequests =
        (identifyResp { apiKey := "k" } (fun _ => okPngFetch)
          (fun _ _ => { status := 200, data := sampleData })
          sampleArgs).data.remainingIdentificationRequests ∧
      d = (identifyResp { apiKey := "k" } (fun _ => okPngFetch)
        (fun _ _ => { status := 200, data := sampleData }) sampleArgs).data) ∧
    (listProjects { apiKey := "k" }
        (fun _ => { status := 200, statusText := "OK", bodyText := "{}",
                    data := [("weurope",
                      { id := "weurope", name := "Western Europe" })] })
        "en").1 =
      .ok [("weurope", { id := "weurope", name := "Western Europe" })] :=
  c4_passthrough { apiKey := "k" } (fun _ => okPngFetch)
    (fun _ _ => { status := 200, data := sampleData })
    (fun _ => { status := 200, statusText := "OK", bodyText := "{}",
                data := [("weurope",
                  { id := "weurope", name := "Western Europe" })] })
    sampleArgs "en" (by decide) (by decide) (by decide) (by decide)
    (by decide) (by decide)

/-! ### C5: multipart layout -/

/-- The per-pair two-part blocks have total length twice the pair count. -/
theorem builtForm_blocks_length (fetchO : String → FetchResponse) :
    ∀ (pairs : List (String × String)) (n : Nat),
      ((List.enumFrom n pairs).flatMap fun q =>
        [imagePart fetchO q.2.1 q.1, FormPart.field "organs" q.2.2]).length =
      2 * pairs.length := by
  intro pairs
  induction pairs with
  | nil => intro n; rfl
  | cons p rest ih =>
    intro n
    simp only [List.enumFrom, List.flatMap_cons, List.length_append,
      List.length_cons, ih (n + 1)]
    simp
    omega

/-- Positions `2k` and `2k + 1` of the concatenated blocks hold the image
part and the organ part of the pair at position `k` (with the filename
index offset by the enumeration start). -/
theorem builtForm_blocks_get (fetchO : String → FetchResponse) :
    ∀ (pairs : List (String × String)) (n k : Nat) (u o : String),
      pairs.get? k = some (u, o) →
      (((List.enumFrom n pairs).flatMap fun q =>
          [imagePart fetchO q.2.1 q.1, FormPart.field "organs" q.2.2]).get?
          (2 * k) = some (imagePart fetchO u (n + k)) ∧
       ((List.enumFrom n pairs).flatMap fun q =>
          [imagePart fetchO q.2.1 q.1, FormPart.field "organs" q.2.2]).get?
          (2 * k + 1) = some (FormPart.field "organs" o)) := by
  intro pairs
  induction pairs with
  | nil => intro n k u o hk; simp at hk
  | cons p rest ih =>
    intro n k u o hk
    obtain ⟨u', o'⟩ := p
    cases k with
    | zero =>
      have : (u', o') = (u, o) := by simpa using hk
      obtain ⟨rfl, rfl⟩ := Prod.mk.injEq .. ▸ this
      constructor
      · simp [List.enumFrom, List.flatMap_cons]
      · simp [List.enumFrom, List.flatMap_cons]
    | succ k' =>
      have hk' : rest.get? k' = some (u, o) := hk
      have ih' := ih (n + 1) k' u o hk'
      have e1 : 2 * (k' + 1) = 2 * k' + 1 + 1 := by ring
      have e2 : n + (k' + 1) = (n + 1) + k' := by ring
      constructor
      · rw [e1, e2]
        simpa [List.enumFrom, List.flatMap_cons] using ih'.1
      · rw [e1]
        simpa [List.enumFrom, List.flatMap_cons] using ih'.2

/-- C5: for a valid request whose downloads succeed, the assembled
multipart body has exactly two parts per image — at positions `2i` and
`2i + 1` the binary image part for locator `i` (field name `images`,
filename indexed by `i`) and the organ tag of index `i` serialized as a
plain string field — so image `i` is positionally paired with organ `i`;
and that body is what the single POST carries. -/
theorem c5_multipart_positional (c : PlantNetClient)
    (fetchO : String → FetchResponse)
    (postO : UrlParts → List FormPart → PostResponse)
    (args : IdentifyPlantArgs)
    (h0 : args.image_urls.length ≠ 0)
    (hlen : args.image_urls.length = args.organs.length)
    (hle : args.image_urls.length ≤ 5)
    (hok : ∀ u ∈ args.image_urls, respOk (fetchO u).status = true) :
    (identifyPlant c fetchO postO args).2 =
      args.image_urls.map .fetchImage ++
        [.postIdentify
          (identifyUrl c.apiKey (args.project.getD "all")
            (args.lang.getD "en") (args.nb_results.getD 5))
          (builtForm fetchO args)] ∧
    (builtForm fetchO args).length = 2 * args.image_urls.length ∧
    ∀ i u o, args.image_urls.get? i = some u → args.organs.get? i = some o →
      (builtForm fetchO args).get? (2 * i) =
        some (.image "images" (fetchO u).bytes
          ("image" ++ toString i ++ "." ++ extOf (fetchO u))
          (contentTypeOf (fetchO u))) ∧
      (builtForm fetchO args).get? (2 * i + 1) =
        some (.field "organs" o) := by
  refine ⟨?_, ?_, ?_⟩
  · rw [identifyPlant_success_shape c fetchO postO args h0 hlen hle hok]
  · rw [builtForm, builtForm_blocks_length]
    simp [List.length_zip, ← hlen]
  · intro i u o hu ho
    have hzip : (args.image_urls.zip args.organs).get? i = some (u, o) := by
      rw [List.get?_zip_eq_some]
      exact ⟨hu, ho⟩
    have h := builtForm_blocks_get fetchO (args.image_urls.zip args.organs)
      0 i u o hzip
    rw [Nat.zero_add] at h
    exact ⟨h.1, h.2⟩

/-- C5 witness: a two-image request; the form is the four parts image 0,
organ 0, image 1, organ 1, and the trace is the two downloads followed by
the single POST of that form. -/
theorem c5_multipart_positional_witness :
    (identifyPlant { apiKey := "k" } (fun _ => okPngFetch)
        (fun _ _ => { status := 200, data := sampleData })
        { image_urls := ["u1", "u2"], organs := ["leaf", "flower"],
          project := none, lang := none, nb_results := none }).2 =
      ["u1", "u2"].map .fetchImage ++
        [.postIdentify
          (identifyUrl "k" "all" "en" 5)
          (builtForm (fun _ => okPngFetch)
            { image_urls := ["u1", "u2"], organs := ["leaf", "flower"],
              project := none, lang := none, nb_results := none })] ∧
    (builtForm (fun _ => okPngFetch)
      { image_urls := ["u1", "u2"], organs := ["leaf", "flower"],
        project := none, lang := none, nb_results := none }).length = 2 * 2 ∧
    ∀ i u o,
      (["u1", "u2"] : List String).get? i = some u →
      (["leaf", "flower"] : List String).get? i = some o →
      (builtForm (fun _ => okPngFetch)
        { image_urls := ["u1", "u2"], organs := ["leaf", "flower"],
          project := none, lang := none, nb_results := none }).get? (2 * i) =
        some (.image "images" okPngFetch.bytes
          ("image" ++ toString i ++ "." ++ extOf okPngFetch)
          (contentTypeOf okPngFetch)) ∧
      (builtForm (fun _ => okPngFetch)
        { image_urls := ["u1", "u2"], organs := ["leaf", "flower"],
          project := none, lang := none, nb_results := none }).get?
          (2 * i + 1) = some (.field "organs" o) :=
  c5_multipart_positional { apiKey := "k" } (fun _ => okPngFetch)
    (fun _ _ => { status := 200, data := sampleData })
    { image_urls := ["u1", "u2"], organs := ["leaf", "flower"],
      project := none, lang := none, nb_results := none }
    (by decide) (by decide) (by decide) (by decide)

/-! ### C6: default endpoint parameters -/

/-- C6: an identify call supplying only image locators and organ tags (all
optional fields absent) POSTs to the path `/v2/identify/all` with query
parameters `api-key` (the credential), `lang=en`, `nb-results=5` and
`include-related-images=false`, in that order. -/
theorem c6_default_parameters (c : PlantNetClient)
    (fetchO : String → FetchResponse)
    (postO : UrlParts → List FormPart → PostResponse)
    (args : IdentifyPlantArgs)
    (h0 : args.image_urls.length ≠ 0)
    (hlen : args.image_urls.length = args.organs.length)
    (hle : args.image_urls.length ≤ 5)
    (hok : ∀ u ∈ args.image_urls, respOk (fetchO u).status = true)
    (hproj : args.project = none) (hlang : args.lang = none)
    (hnb : args.nb_results = none) :
    (identifyPlant c fetchO postO args).2 =
      args.image_urls.map .fetchImage ++
        [.postIdentify
          { path := "/v2/identify/all",
            query := [("api-key", c.apiKey), ("lang", "en"),
              ("nb-results", "5"), ("include-related-images", "false")] }
          (builtForm fetchO args)] := by
  rw [identifyPlant_success_shape c fetchO postO args h0 hlen hle hok]
  have hurl : identifyUrl c.apiKey "all" "en" 5 =
      { path := "/v2/identify/all",
        query := [("api-key", c.apiKey), ("lang", "en"),
          ("nb-results", "5"), ("include-related-images", "false")] } := by
    have h1 : encodeURIComponent "all" = "all" := by decide
    have h2 : toString (5 : Int) = "5" := by decide
    simp [identifyUrl, h1, h2]
  simp only [hproj, hlang, hnb, Option.getD_none, hurl]

/-- C6 witness: a one-image request with only locators and organs; the
trace ends with the POST to `/v2/identify/all?api-key=k&lang=en&`
`nb-results=5&include-related-images=false`. -/
theorem c6_default_parameters_witness :
    (identifyPlant { apiKey := "k" } (fun _ => okPngFetch)
        (fun _ _ => { status := 200, data := sampleData }) sampleArgs).2 =
      sampleArgs.image_urls.map .fetchImage ++
        [.postIdentify
          { path := "/v2/identify/all",
            query := [("api-key", "k"), ("lang", "en"),
              ("nb-results", "5"), ("include-related-images", "false")] }
          (builtForm (fun _ => okPngFetch) sampleArgs)] :=
  c6_default_parameters { apiKey := "k" } (fun _ => okPngFetch)
    (fun _ _ => { status := 200, data := sampleData }) sampleArgs
    (by decide) (by decide) (by decide) (by decide) rfl rfl rfl

/-! ### C7: formatter preserves candidate order -/

/-- C7: the formatter's line list is the fixed header followed by one block
per candidate in exactly the order the candidates were received (the fold
over the enumerated result list concatenates the blocks in list order,
with no re-sorting), followed by the fixed footer; the first line of the
block built for the candidate paired with index `i` carries the rank
`i + 1`; and the enumeration pairs index `i` with exactly the candidate at
position `i` of the received list, so each block's rank number is the
candidate's 1-based position. -/
theorem c7_formatter_preserves_order (d : PlantNetIdentifyResponse) :
    formatLines d =
      headerLines d ++
        (d.results.enum.flatMap fun p => candidateBlock p.2 p.1) ++
        footerLines ∧
    (∀ (r : PlantNetResult) (i : Nat),
      (candidateBlock r i).head? =
        some ("**" ++ toString (i + 1) ++ ". " ++
          r.species.scientificNameWithoutAuthor ++ "** — " ++
          toFixed1 (r.score * 100) ++ "% confidence")) ∧
    (∀ i : Nat, d.results.enum.get? i =
      (d.results.get? i).map fun r => (i, r)) := by
  refine ⟨?_, fun r i => rfl, fun i => ?_⟩
  · rw [formatLines,
      foldl_append_blocks (fun p => candidateBlock p.2 p.1) d.results.enum
        (headerLines d), List.append_assoc]
  · simp [List.getElem?_enum]

/-! ### C9: result-count default and bounds at the tool boundary -/

/-- C9: at the `identify_plant` tool boundary the result count defaults to
5 when absent and every accepted value lies in 1..25; a request whose
result count falls outside that range is rejected by the schema with no
network event — the upstream endpoint is never reached. -/
theorem c9_nb_results_default_and_bounds (isUrl : String → Bool)
    (c : PlantNetClient) (fetchO : String → FetchResponse)
    (postO : UrlParts → List FormPart → PostResponse)
    (raw : RawIdentifyArgs) :
    (∀ a, parseIdentifyArgs isUrl raw = some a →
      a.nb_results = raw.nb_results.getD 5 ∧
      1 ≤ a.nb_results ∧ a.nb_results ≤ 25) ∧
    (∀ n : Int, raw.nb_results = some n → (n < 1 ∨ 25 < n) →
      handleIdentifyPlant isUrl c fetchO postO raw =
        (.error .schemaError, [])) := by
  constructor
  · intro a ha
    rw [parseIdentifyArgs] at ha
    split_ifs at ha with hcond
    · obtain rfl := Option.some.inj ha
      refine ⟨rfl, ?_⟩
      cases hnb : raw.nb_results with
      | none => simp [hnb]
      | some n =>
        rw [hnb] at hcond
        simp only [Bool.and_eq_true, decide_eq_true_eq] at hcond
        simp only [hnb, Option.getD_some]
        exact hcond.2
  · intro n hn hout
    have hparse : parseIdentifyArgs isUrl raw = none := by
      rw [parseIdentifyArgs]
      split_ifs with hcond
      · exfalso
        rw [hn] at hcond
        simp only [Bool.and_eq_true, decide_eq_true_eq] at hcond
        obtain ⟨h1, h2⟩ := hcond.2
        omega
      · rfl
    simp [handleIdentifyPlant, hparse]

/-- A raw one-image request whose result count 26 exceeds the bound. -/
def rawOutOfRange : RawIdentifyArgs :=
  { image_urls := ["u"], organs := ["leaf"], project := none, lang := none,
    nb_results := some 26 }

/-- A raw one-image request with every optional field absent. -/
def rawNoOptions : RawIdentifyArgs :=
  { image_urls := ["u"], organs := ["leaf"], project := none, lang := none,
    nb_results := none }

/-- What the schema produces for `rawNoOptions`: all defaults applied. -/
def parsedDefault : ParsedIdentifyArgs :=
  { image_urls := ["u"], organs := ["leaf"], project := "all", lang := "en",
    nb_results := 5 }

/-- C9 witness: `nb_results = 26` is rejected by the schema with an empty
trace; with `nb_results` absent the parsed arguments carry the default 5,
which lies in 1..25. -/
theorem c9_nb_results_default_and_bounds_witness :
    handleIdentifyPlant (fun _ => true) { apiKey := "k" }
      (fun _ => okPngFetch)
      (fun _ _ => { status := 200, data := sampleData }) rawOutOfRange =
      (.error .schemaError, []) ∧
    (parsedDefault.nb_results = rawNoOptions.nb_results.getD 5 ∧
      1 ≤ parsedDefault.nb_results ∧ parsedDefault.nb_results ≤ 25) :=
  ⟨(c9_nb_results_default_and_bounds (fun _ => true) { apiKey := "k" }
      (fun _ => okPngFetch)
      (fun _ _ => { status := 200, data := sampleData })
      rawOutOfRange).2 26 rfl (by decide),
   (c9_nb_results_default_and_bounds (fun _ => true) { apiKey := "k" }
      (fun _ => okPngFetch)
      (fun _ _ => { status := 200, data := sampleData })
      rawNoOptions).1 parsedDefault (by decide)⟩

end PlantNet
